import Mathlib

/-!
Verification development for the Funnel Flow repository.

The analysis pipeline lives in two Genkit flow definitions
(src/ai/flows/analyze-marketing-offer.ts and
src/ai/flows/generate-social-media-copy.ts).  Each flow validates its
input against a Zod schema, renders a deterministic prompt from the
validated input, performs a single call to the external generative
model, and parses the raw model payload against a Zod output schema.
The client page (src/app/page.tsx) guards submission and maps thrown
errors to a user-facing message, and ScoreDonut.tsx maps a score to a
color class and a donut arc offset.

We embed the untyped model payloads as a small JSON universe and the
Zod schemas of the source as parsers over it, then embed the two flows
as functions over an abstract model oracle that records how many model
invocations were performed.
-/

namespace FunnelFlow

/-- Untyped JSON values, the universe over which the Zod schemas of the
source operate.  Numbers are modelled as rationals (exact values of the
JavaScript numbers relevant here). -/
inductive Json where
  | null : Json
  | bool : Bool → Json
  | num : ℚ → Json
  | str : String → Json
  | arr : List Json → Json
  | obj : List (String × Json) → Json

/-- First binding of a key in a JSON object literal (JavaScript object
field lookup). -/
def lookupField : List (String × Json) → String → Option Json
  | [], _ => none
  | (k, v) :: rest, key => if k = key then some v else lookupField rest key

/-- Field access on a JSON value: an object yields its field, any other
value has no fields (so a non-object fails every `z.object` schema). -/
def Json.getField : Json → String → Option Json
  | .obj fields, key => lookupField fields key
  | _, _ => none

/-- Semantics of `z.string()` as written in both flow files: any string
is accepted, with no length constraint. -/
def parseZodString : Json → Option String
  | .str s => some s
  | _ => none

/-- Semantics of `z.number()` as written in `AnalysisItemSchema`
(`score: z.number()`): any number is accepted, with no `.int()`,
`.min` or `.max` refinement. -/
def parseZodNumber : Json → Option ℚ
  | .num q => some q
  | _ => none

/-- Semantics of `z.enum(['link', 'text'])` from
`AnalyzeMarketingOfferInputSchema.inputType`. -/
def parseInputType : Json → Option String
  | .str s => if s = "link" then some s else if s = "text" then some s else none
  | _ => none

/-- `AnalyzeMarketingOfferInput` (analyze-marketing-offer.ts):
offerDetails, inputType and persona.  In the source, `offerDetails` and
`persona` are plain `z.string()` with no length or membership
constraint. -/
structure AnalyzeMarketingOfferInput where
  offerDetails : String
  inputType : String
  persona : String
deriving DecidableEq, Repr

/-- `AnalyzeMarketingOfferInputSchema` of analyze-marketing-offer.ts:
`z.object` with fields offerDetails (`z.string()`), inputType
(`z.enum(['link','text'])`) and persona (`z.string()`). -/
def parseAnalyzeInput (j : Json) : Option AnalyzeMarketingOfferInput := do
  let offerDetails ← (j.getField "offerDetails").bind parseZodString
  let inputType ← (j.getField "inputType").bind parseInputType
  let persona ← (j.getField "persona").bind parseZodString
  pure ⟨offerDetails, inputType, persona⟩

/-- The `fix` sub-object of an analysis item: two suggestion strings,
each a plain `z.string()` in the source (no minimum length, no
distinctness refinement). -/
structure AnalysisFix where
  primarySuggestion : String
  abTestSuggestion : String
deriving DecidableEq, Repr

/-- Parser for the `fix: z.object({primarySuggestion: z.string(),
abTestSuggestion: z.string()})` sub-schema shared by both flows. -/
def parseFix (j : Json) : Option AnalysisFix := do
  let primary ← (j.getField "primarySuggestion").bind parseZodString
  let abTest ← (j.getField "abTestSuggestion").bind parseZodString
  pure ⟨primary, abTest⟩

/-- `AnalysisItemSchema` of analyze-marketing-offer.ts: id, area, score,
leak, fix.  In the source, `score` is `z.number()` (no integer or range
bound) and the strings have no length bounds. -/
structure AnalysisItem where
  id : String
  area : String
  score : ℚ
  leak : String
  fix : AnalysisFix
deriving DecidableEq, Repr

/-- Parser for `AnalysisItemSchema` (analyze-marketing-offer.ts).  Zod
object parsing strips unknown keys and fails only on missing or
mistyped declared fields. -/
def parseAnalysisItem (j : Json) : Option AnalysisItem := do
  let idStr ← (j.getField "id").bind parseZodString
  let area ← (j.getField "area").bind parseZodString
  let score ← (j.getField "score").bind parseZodNumber
  let leak ← (j.getField "leak").bind parseZodString
  let fix ← (j.getField "fix").bind parseFix
  pure ⟨idStr, area, score, leak, fix⟩

/-- `z.array(AnalysisItemSchema)` element-wise parsing: every element
must parse; there is no `.min(2)` or `.max(3)` cardinality bound in the
source. -/
def parseAnalysisItems : List Json → Option (List AnalysisItem)
  | [] => some []
  | j :: js => do
    let item ← parseAnalysisItem j
    let rest ← parseAnalysisItems js
    pure (item :: rest)

/-- The `analysis` field value must be a JSON array. -/
def parseAnalysisArray : Json → Option (List AnalysisItem)
  | .arr js => parseAnalysisItems js
  | _ => none

/-- `SampleCopySchema` of analyze-marketing-offer.ts: platform and
content, both plain `z.string()` (no 50-500 character bound on
content). -/
structure SampleCopy where
  platform : String
  content : String
deriving DecidableEq, Repr

/-- Parser for `SampleCopySchema`. -/
def parseSampleCopy (j : Json) : Option SampleCopy := do
  let platform ← (j.getField "platform").bind parseZodString
  let content ← (j.getField "content").bind parseZodString
  pure ⟨platform, content⟩

/-- `AnalyzeMarketingOfferOutput`: the typed result of the analyze
flow. -/
structure AnalyzeMarketingOfferOutput where
  analysis : List AnalysisItem
  sampleCopy : SampleCopy
deriving DecidableEq, Repr

/-- `AnalyzeMarketingOfferOutputSchema` of analyze-marketing-offer.ts:
`z.object({analysis: z.array(AnalysisItemSchema), sampleCopy:
SampleCopySchema})`. -/
def parseAnalyzeOutput (j : Json) : Option AnalyzeMarketingOfferOutput := do
  let analysis ← (j.getField "analysis").bind parseAnalysisArray
  let sampleCopy ← (j.getField "sampleCopy").bind parseSampleCopy
  pure ⟨analysis, sampleCopy⟩

/-- An analysis item as accepted by
`GenerateSocialMediaCopyInputSchema` (generate-social-media-copy.ts):
area, score, leak and fix, but no `id` field. -/
structure GenCopyAnalysisItem where
  area : String
  score : ℚ
  leak : String
  fix : AnalysisFix
deriving DecidableEq, Repr

/-- Parser for the inline item schema inside
`GenerateSocialMediaCopyInputSchema.analysis`.  An extra `id` key on
the value is stripped by Zod object parsing, not rejected. -/
def parseGenCopyItem (j : Json) : Option GenCopyAnalysisItem := do
  let area ← (j.getField "area").bind parseZodString
  let score ← (j.getField "score").bind parseZodNumber
  let leak ← (j.getField "leak").bind parseZodString
  let fix ← (j.getField "fix").bind parseFix
  pure ⟨area, score, leak, fix⟩

/-- Element-wise parsing of the `analysis` array of the copy
generation input. -/
def parseGenCopyItems : List Json → Option (List GenCopyAnalysisItem)
  | [] => some []
  | j :: js => do
    let item ← parseGenCopyItem j
    let rest ← parseGenCopyItems js
    pure (item :: rest)

/-- The copy generation `analysis` field must be a JSON array. -/
def parseGenCopyArray : Json → Option (List GenCopyAnalysisItem)
  | .arr js => parseGenCopyItems js
  | _ => none

/-- `GenerateSocialMediaCopyInput` (generate-social-media-copy.ts). -/
structure GenerateSocialMediaCopyInput where
  analysis : List GenCopyAnalysisItem
  persona : String
  offerDetails : String
deriving DecidableEq, Repr

/-- Parser for `GenerateSocialMediaCopyInputSchema`
(generate-social-media-copy.ts). -/
def parseGenCopyInput (j : Json) : Option GenerateSocialMediaCopyInput := do
  let analysis ← (j.getField "analysis").bind parseGenCopyArray
  let persona ← (j.getField "persona").bind parseZodString
  let offerDetails ← (j.getField "offerDetails").bind parseZodString
  pure ⟨analysis, persona, offerDetails⟩

/-- Forgetting the `id` field turns an analyze-flow output item into
the shape consumed by the copy generation input schema. -/
def eraseId (item : AnalysisItem) : GenCopyAnalysisItem :=
  ⟨item.area, item.score, item.leak, item.fix⟩

/-- The Handlebars template of `analyzeMarketingOfferPrompt`
(analyze-marketing-offer.ts), rendered over a validated input.  The
template is a fixed string; the only varying parts are the three
substituted input fields, so rendering is a pure function of the
input. -/
def renderAnalyzePrompt (i : AnalyzeMarketingOfferInput) : String :=
  "You are an expert marketing funnel conversion analyst.\n" ++
  "A user is providing their marketing offer details for analysis.\n" ++
  "The user\x27s input is: \"" ++ i.offerDetails ++ "\" (" ++ i.inputType ++ ").\n" ++
  "The target audience persona is: \"" ++ i.persona ++ "\".\n\n" ++
  "Your task is to perform a detailed analysis and provide the following:\n" ++
  "1.  **Analysis of 2-3 key areas:** Identify critical \"leaks\". For each area (e.g., \x27Headline Clarity\x27, \x27Call-to-Action Strength\x27, \x27Offer Urgency\x27):\n" ++
  "    - Give it a score from 1 to 10.\n" ++
  "    - Describe the leak.\n" ++
  "    - Provide two distinct fix suggestions (A and B) for A/B testing.\n" ++
  "2.  **Generate Sample Copy:** Based on your analysis, write a short, engaging social media post (e.g., for Twitter or Instagram) to promote the user\x27s offer, incorporating your suggested improvements.\n\n" ++
  "Present your complete analysis in the structured JSON format specified."

/-- The ways a single external model invocation can fail, as surfaced
by the hosted model service behind the Genkit prompt call. -/
inductive ModelFailure where
  | timeout : ModelFailure
  | transport : ModelFailure
  | quota : ModelFailure
  | safetyBlock : ModelFailure
deriving DecidableEq, Repr

/-- One response of the external model: either a raw JSON payload or a
failure. -/
inductive ModelResponse where
  | ok : Json → ModelResponse
  | fail : ModelFailure → ModelResponse

/-- A model oracle: the response the external service returns to the
n-th invocation of this request, given the rendered prompt string. -/
def ModelOracle : Type := Nat → String → ModelResponse

/-- How a flow invocation can fail: Genkit rejects the request against
the flow's input schema, the model call itself fails, or the model
payload is rejected against the output schema. -/
inductive FlowError where
  | inputValidation : FlowError
  | modelFailure : ModelFailure → FlowError
  | outputValidation : FlowError
deriving DecidableEq, Repr

/-- Modelled from the spec: the Model Invoker layer (the Genkit
configuration at src/ai/genkit.ts and the googleai plugin, whose code
is not part of the analyzed sources) classifies a failed model call as
retryable (transient transport problem or timeout) or non-retryable
(quota exhaustion, content-safety block), per the error-handling design
in section 7 of the specification. -/
def modelFailureRetryable : ModelFailure → Bool
  | .timeout => true
  | .transport => true
  | .quota => false
  | .safetyBlock => false

/-- `analyzeMarketingOfferFlow` (analyze-marketing-offer.ts): Genkit
validates the request against `AnalyzeMarketingOfferInputSchema`, then
the flow body performs exactly one prompt invocation
(`await analyzeMarketingOfferPrompt(input)`) and returns `output!`;
a payload rejected by `AnalyzeMarketingOfferOutputSchema` is a terminal
error.  There is no retry of any kind in the flow body.  The second
component counts the model invocations performed. -/
def analyzeMarketingOfferFlow (model : ModelOracle) (request : Json) :
    Except FlowError AnalyzeMarketingOfferOutput × Nat :=
  match parseAnalyzeInput request with
  | none => (.error .inputValidation, 0)
  | some input =>
    match model 0 (renderAnalyzePrompt input) with
    | .fail f => (.error (.modelFailure f), 1)
    | .ok payload =>
      match parseAnalyzeOutput payload with
      | none => (.error .outputValidation, 1)
      | some output => (.ok output, 1)

/-- State of the Home page component (src/app/page.tsx) as far as
`handleSubmit` observes and updates it: the displayed results and the
error message. -/
structure HomeState where
  results : Option AnalyzeMarketingOfferOutput
  error : String
deriving DecidableEq, Repr

/-- Outcome of the awaited `analyzeMarketingOffer` server call inside
the submit transition: a typed response, or a thrown `Error` carrying a
message. -/
inductive AnalyzeOutcome where
  | success : AnalyzeMarketingOfferOutput → AnalyzeOutcome
  | thrown : String → AnalyzeOutcome

/-- JavaScript `String.prototype.trim()`: remove whitespace from both
ends of the string. -/
def jsTrim (s : String) : String :=
  String.mk (((s.data.dropWhile Char.isWhitespace).reverse.dropWhile
    Char.isWhitespace).reverse)

/-- `handleSubmit` of src/app/page.tsx.  Guard: if
`inputValue.trim()` is empty (JavaScript falsy) an error message is set
and the function returns before the transition, leaving results
untouched.  Otherwise results and error are cleared, the server action
runs, and either the response is stored or the catch branch stores a
message built from the thrown error and nulls the results.  The second
component records whether `analyzeMarketingOffer` was invoked. -/
def handleSubmit (st : HomeState) (inputValue : String) (outcome : AnalyzeOutcome) :
    HomeState × Bool :=
  if jsTrim inputValue = "" then
    ({ st with error := "Please enter a URL or describe your offer." }, false)
  else
    match outcome with
    | .success response => ({ results := some response, error := "" }, true)
    | .thrown message =>
        ({ results := none,
           error := "An error occurred while analyzing: " ++ message ++ ". Please try again." },
         true)

/-- Color-class selection of ScoreDonut.tsx: start from green,
overwrite with yellow when `score < 7`, overwrite with red when
`score < 4`. -/
def scoreDonutColor (score : ℚ) : String :=
  let colorClass := "text-green-400"
  let colorClass := if score < 7 then "text-yellow-400" else colorClass
  let colorClass := if score < 4 then "text-red-400" else colorClass
  colorClass

/-- Donut arc offset of ScoreDonut.tsx:
`percentage = score * 10; offset = circumference - (percentage / 100) *
circumference`.  The circumference (`2 * Math.PI * 18` in the source)
is abstracted as a parameter since the identity proved about the
offset holds for every value of it. -/
def scoreDonutOffset (circumference score : ℚ) : ℚ :=
  let percentage := score * 10
  circumference - (percentage / 100) * circumference

/-- A well-formed request: the worked scenario of the specification. -/
def exampleInputJson : Json := .obj
  [("offerDetails", .str "https://example.com/signup"),
   ("inputType", .str "link"),
   ("persona", .str "SaaS Founders")]

/-- A request whose offerDetails is 5 characters long, below the
documented 10-character minimum. -/
def shortOfferInputJson : Json := .obj
  [("offerDetails", .str "short"),
   ("inputType", .str "text"),
   ("persona", .str "General Audience")]

/-- A request whose persona is not one of the six documented persona
values. -/
def unknownPersonaInputJson : Json := .obj
  [("offerDetails", .str "A meal planning app for busy families"),
   ("inputType", .str "text"),
   ("persona", .str "Time Travelers")]

/-- A model payload that satisfies every documented constraint: two
items, integer scores in [1,10], distinct suggestions, sample copy of
50-500 characters. -/
def wellFormedModelJson : Json := .obj
  [("analysis", .arr
    [.obj
      [("id", .str "a1"),
       ("area", .str "Headline Clarity"),
       ("score", .num 6),
       ("leak", .str "The headline does not state the main benefit."),
       ("fix", .obj
         [("primarySuggestion", .str "State the concrete outcome in the headline."),
          ("abTestSuggestion", .str "Ask a question that names the pain point.")])],
     .obj
      [("id", .str "a2"),
       ("area", .str "Call-to-Action Strength"),
       ("score", .num 4),
       ("leak", .str "The button copy is generic and lacks urgency."),
       ("fix", .obj
         [("primarySuggestion", .str "Use action-oriented button copy with a free trial."),
          ("abTestSuggestion", .str "Add time-limited language to the button copy.")])]]),
   ("sampleCopy", .obj
     [("platform", .str "Instagram Post"),
      ("content", .str "Stop losing signups today. Our audit shows exactly where your funnel leaks and how to fix it fast.")])]

/-- The typed value that `wellFormedModelJson` parses to. -/
def wellFormedOutput : AnalyzeMarketingOfferOutput :=
  ⟨[⟨"a1", "Headline Clarity", 6, "The headline does not state the main benefit.",
      ⟨"State the concrete outcome in the headline.",
       "Ask a question that names the pain point."⟩⟩,
    ⟨"a2", "Call-to-Action Strength", 4, "The button copy is generic and lacks urgency.",
      ⟨"Use action-oriented button copy with a free trial.",
       "Add time-limited language to the button copy."⟩⟩],
   ⟨"Instagram Post",
    "Stop losing signups today. Our audit shows exactly where your funnel leaks and how to fix it fast."⟩⟩

/-- An oracle whose every response is the well-formed payload. -/
def wellFormedOracle : ModelOracle := fun _ _ => .ok wellFormedModelJson

/-- A model payload that violates every invariant the claims ascribe to
the output schema: a single analysis item (documented cardinality is
2-3), a non-integer score 17/2 outside a 1-10 integer range, identical
primary and A/B suggestions, and a 2-character sample copy. -/
def degenerateModelJson : Json := .obj
  [("analysis", .arr
    [.obj
      [("id", .str "only"),
       ("area", .str "Headline Clarity"),
       ("score", .num (17 / 2)),
       ("leak", .str "weak"),
       ("fix", .obj
         [("primarySuggestion", .str "Add urgency."),
          ("abTestSuggestion", .str "Add urgency.")])]]),
   ("sampleCopy", .obj
     [("platform", .str "Twitter"),
      ("content", .str "Hi")])]

/-- The single analysis item of the degenerate payload. -/
def degenerateItem : AnalysisItem :=
  ⟨"only", "Headline Clarity", 17 / 2, "weak", ⟨"Add urgency.", "Add urgency."⟩⟩

/-- The typed value that `degenerateModelJson` parses to. -/
def degenerateOutput : AnalyzeMarketingOfferOutput :=
  ⟨[degenerateItem], ⟨"Twitter", "Hi"⟩⟩

/-- An oracle whose every response is the degenerate payload. -/
def degenerateOracle : ModelOracle := fun _ _ => .ok degenerateModelJson

/-- A model payload identical to the well-formed one except that the
sample copy content is 8 characters long, below the documented
50-character minimum. -/
def shortCopyModelJson : Json := .obj
  [("analysis", .arr
    [.obj
      [("id", .str "a1"),
       ("area", .str "Headline Clarity"),
       ("score", .num 6),
       ("leak", .str "The headline does not state the main benefit."),
       ("fix", .obj
         [("primarySuggestion", .str "State the concrete outcome in the headline."),
          ("abTestSuggestion", .str "Ask a question that names the pain point.")])],
     .obj
      [("id", .str "a2"),
       ("area", .str "Call-to-Action Strength"),
       ("score", .num 4),
       ("leak", .str "The button copy is generic and lacks urgency."),
       ("fix", .obj
         [("primarySuggestion", .str "Use action-oriented button copy with a free trial."),
          ("abTestSuggestion", .str "Add time-limited language to the button copy.")])]]),
   ("sampleCopy", .obj
     [("platform", .str "Instagram Post"),
      ("content", .str "Buy now!")])]

/-- The typed value that `shortCopyModelJson` parses to. -/
def shortCopyOutput : AnalyzeMarketingOfferOutput :=
  ⟨wellFormedOutput.analysis, ⟨"Instagram Post", "Buy now!"⟩⟩

/-- An oracle whose every response is the short-sample-copy payload. -/
def shortCopyOracle : ModelOracle := fun _ _ => .ok shortCopyModelJson

/-- An oracle whose first response is unparseable and whose later
responses are well formed: if the flow performed a corrective
re-invocation, the second call would succeed. -/
def correctedSecondTryOracle : ModelOracle :=
  fun n _ => if n = 0 then .ok (.str "not a structured payload") else .ok wellFormedModelJson

/-- An oracle whose first call times out. -/
def timeoutOracle : ModelOracle := fun _ _ => .fail .timeout

/-- C1: the claim states that `analyzeMarketingOffer` only ever returns
results whose analysis array has length 2 or 3, with integer scores in
[1,10] and distinct fix suggestions.  In the source,
`AnalyzeMarketingOfferOutputSchema` carries none of these constraints
(no array `.min(2).max(3)`, `score` is a bare `z.number()`, no
distinctness refinement), so the flow returns a fully "successful"
result with one analysis item whose score is the non-integer 17/2 and
whose two fix suggestions are identical. -/
theorem analyze_flow_output_schema_unconstrained :
    analyzeMarketingOfferFlow degenerateOracle exampleInputJson
      = (.ok degenerateOutput, 1)
    ∧ degenerateOutput.analysis = [degenerateItem]
    ∧ degenerateOutput.analysis.length = 1
    ∧ degenerateItem.score.den = 2
    ∧ degenerateItem.fix.primarySuggestion = degenerateItem.fix.abTestSuggestion :=
  ⟨rfl, rfl, rfl, by norm_num [degenerateItem], rfl⟩

/-- C2: the claim states that a request whose offerDetails is shorter
than 10 characters is rejected by the request schema before any model
call.  In the source, `AnalyzeMarketingOfferInputSchema.offerDetails`
is a bare `z.string()` with no `.min(10)` or `.max(2000)`, so the
5-character offer "short" passes validation and the flow performs one
model call and succeeds. -/
theorem analyze_flow_accepts_short_offer :
    "short".length = 5
    ∧ analyzeMarketingOfferFlow wellFormedOracle shortOfferInputJson
        = (.ok wellFormedOutput, 1) :=
  ⟨rfl, rfl⟩

/-- C3: the claim states that a persona outside the six fixed values
is rejected with a validation error naming the persona field.  In the
source, `AnalyzeMarketingOfferInputSchema.persona` is a bare
`z.string()`, so the persona "Time Travelers" passes validation
unchanged (it is not mapped to a default either) and the flow performs
one model call and succeeds. -/
theorem analyze_flow_accepts_unknown_persona :
    parseAnalyzeInput unknownPersonaInputJson
      = some ⟨"A meal planning app for busy families", "text", "Time Travelers"⟩
    ∧ analyzeMarketingOfferFlow wellFormedOracle unknownPersonaInputJson
        = (.ok wellFormedOutput, 1) :=
  ⟨rfl, rfl⟩

/-- C6: the claim states that every successful result has
sampleCopy.content of 50 to 500 characters.  In the source,
`SampleCopySchema.content` is a bare `z.string()` with no
`.min(50).max(500)`, so a payload whose content is the 8-character
string "Buy now!" is returned as a successful result. -/
theorem analyze_flow_accepts_short_sample_copy :
    analyzeMarketingOfferFlow shortCopyOracle exampleInputJson
      = (.ok shortCopyOutput, 1)
    ∧ shortCopyOutput.sampleCopy.content.length = 8 :=
  ⟨rfl, rfl⟩

/-- C4 counterexample: the claim states that a schema-validation
failure of the model output triggers exactly one corrective
re-invocation of the model.  Against an oracle whose first payload is
unparseable and whose second response would be perfectly well formed,
the flow nevertheless fails terminally after a single model call: no
second invocation ever happens, so the invocation count is 1, not 2. -/
theorem analyze_flow_no_corrective_retry :
    analyzeMarketingOfferFlow correctedSecondTryOracle exampleInputJson
      = (.error .outputValidation, 1)
    ∧ (analyzeMarketingOfferFlow correctedSecondTryOracle exampleInputJson).2 ≠ 2 :=
  ⟨rfl, by decide⟩

/-- C4 (amended): when the model payload fails output-schema
validation, the flow fails immediately with a terminal
schema-validation error after exactly one model call — it performs no
corrective re-invocation and never fabricates or truncates data into a
successful result. -/
theorem analyze_flow_terminal_on_output_validation_failure
    (model : ModelOracle) (request : Json) (input : AnalyzeMarketingOfferInput)
    (payload : Json)
    (hin : parseAnalyzeInput request = some input)
    (hok : model 0 (renderAnalyzePrompt input) = .ok payload)
    (hbad : parseAnalyzeOutput payload = none) :
    analyzeMarketingOfferFlow model request = (.error .outputValidation, 1) := by
  simp [analyzeMarketingOfferFlow, hin, hok, hbad]

/-- Witness for `analyze_flow_terminal_on_output_validation_failure`
at a concrete request, oracle and unparseable payload. -/
theorem analyze_flow_terminal_on_output_validation_failure_witness :
    analyzeMarketingOfferFlow correctedSecondTryOracle exampleInputJson
      = (.error .outputValidation, 1) :=
  analyze_flow_terminal_on_output_validation_failure correctedSecondTryOracle
    exampleInputJson ⟨"https://example.com/signup", "link", "SaaS Founders"⟩
    (.str "not a structured payload") rfl rfl rfl

/-- C7: the prompt builder is deterministic — the rendered prompt of
`analyzeMarketingOfferPrompt` is a pure function of the three request
fields (there is no randomness or time-dependent content in the
template), so two requests with the same offerDetails, inputType and
persona render byte-identical prompt strings. -/
theorem render_analyze_prompt_deterministic
    (a b : AnalyzeMarketingOfferInput)
    (hod : a.offerDetails = b.offerDetails)
    (hit : a.inputType = b.inputType)
    (hp : a.persona = b.persona) :
    renderAnalyzePrompt a = renderAnalyzePrompt b := by
  unfold renderAnalyzePrompt
  rw [hod, hit, hp]

/-- Witness for `render_analyze_prompt_deterministic`: rendering the
worked-scenario request twice yields the same string. -/
theorem render_analyze_prompt_deterministic_witness :
    renderAnalyzePrompt ⟨"https://example.com/signup", "link", "SaaS Founders"⟩
      = renderAnalyzePrompt ⟨"https://example.com/signup", "link", "SaaS Founders"⟩ :=
  render_analyze_prompt_deterministic _ _ rfl rfl rfl

/-- C8: when the single model call fails with a timeout, the flow
fails immediately with that model failure after exactly one model
call — no retry of the model call happens and no output-validation
retry is consumed (the invocation count is 1).  The failure
classification (modelled from the spec, section 7) marks timeout and
transport failures retryable and quota and safety-block failures
non-retryable. -/
theorem analyze_flow_fails_fast_on_timeout
    (model : ModelOracle) (request : Json) (input : AnalyzeMarketingOfferInput)
    (hin : parseAnalyzeInput request = some input)
    (hfail : model 0 (renderAnalyzePrompt input) = .fail .timeout) :
    analyzeMarketingOfferFlow model request = (.error (.modelFailure .timeout), 1)
    ∧ modelFailureRetryable .timeout = true
    ∧ modelFailureRetryable .transport = true
    ∧ modelFailureRetryable .quota = false
    ∧ modelFailureRetryable .safetyBlock = false := by
  refine ⟨?_, rfl, rfl, rfl, rfl⟩
  simp [analyzeMarketingOfferFlow, hin, hfail]

/-- Witness for `analyze_flow_fails_fast_on_timeout` at the
worked-scenario request and an oracle that times out. -/
theorem analyze_flow_fails_fast_on_timeout_witness :
    analyzeMarketingOfferFlow timeoutOracle exampleInputJson
      = (.error (.modelFailure .timeout), 1)
    ∧ modelFailureRetryable .timeout = true
    ∧ modelFailureRetryable .transport = true
    ∧ modelFailureRetryable .quota = false
    ∧ modelFailureRetryable .safetyBlock = false :=
  analyze_flow_fails_fast_on_timeout timeoutOracle exampleInputJson
    ⟨"https://example.com/signup", "link", "SaaS Founders"⟩ rfl rfl

/-- C9: when the trimmed input is empty (whitespace-only or empty
input), `handleSubmit` sets a non-empty error message, does not invoke
`analyzeMarketingOffer`, and leaves the displayed results unchanged;
when `analyzeMarketingOffer` throws, `handleSubmit` leaves results
null and sets an error message containing the thrown error message. -/
theorem handleSubmit_guard_and_error_path
    (st : HomeState) (inputValue : String) (outcome : AnalyzeOutcome)
    (message : String) :
    (jsTrim inputValue = "" →
        handleSubmit st inputValue outcome
          = ({ st with error := "Please enter a URL or describe your offer." }, false)
      ∧ (handleSubmit st inputValue outcome).1.results = st.results
      ∧ (handleSubmit st inputValue outcome).1.error ≠ "")
    ∧ (jsTrim inputValue ≠ "" →
        (handleSubmit st inputValue (.thrown message)).1.results = none
      ∧ ∃ pre post,
          (handleSubmit st inputValue (.thrown message)).1.error
            = pre ++ message ++ post) := by
  constructor
  · intro h
    refine ⟨?_, ?_, ?_⟩ <;> simp [handleSubmit, h]
  · intro h
    refine ⟨?_, "An error occurred while analyzing: ", ". Please try again.", ?_⟩ <;>
      simp [handleSubmit, h]

/-- Witness for `handleSubmit_guard_and_error_path`: a whitespace-only
input keeps the previous results and skips the server call, and a
thrown error message "model unavailable" appears inside the displayed
error text. -/
theorem handleSubmit_guard_and_error_path_witness :
    handleSubmit ⟨some wellFormedOutput, "old error"⟩ "   " (.thrown "ignored")
      = (⟨some wellFormedOutput, "Please enter a URL or describe your offer."⟩, false)
    ∧ ∃ pre post,
        (handleSubmit ⟨none, ""⟩ "describe my offer" (.thrown "model unavailable")).1.error
          = pre ++ "model unavailable" ++ post := by
  constructor
  · exact ((handleSubmit_guard_and_error_path ⟨some wellFormedOutput, "old error"⟩ "   "
      (.thrown "ignored") "ignored").1 (by decide)).1
  · exact ((handleSubmit_guard_and_error_path ⟨none, ""⟩ "describe my offer"
      (.thrown "model unavailable") "model unavailable").2 (by decide)).2

/-- C10: the ScoreDonut color classification partitions the score
range exactly — green for scores at least 7, yellow for scores in
[4, 7), red below 4 — and the donut arc offset equals
circumference * (1 - score / 10). -/
theorem scoreDonut_partition_and_offset (circumference score : ℚ) :
    (7 ≤ score → scoreDonutColor score = "text-green-400")
    ∧ (4 ≤ score → score < 7 → scoreDonutColor score = "text-yellow-400")
    ∧ (score < 4 → scoreDonutColor score = "text-red-400")
    ∧ scoreDonutOffset circumference score
        = circumference * (1 - score / 10) := by
  refine ⟨?_, ?_, ?_, ?_⟩
  · intro h
    simp only [scoreDonutColor]
    rw [if_neg (not_lt.mpr (by linarith)), if_neg (not_lt.mpr h)]
  · intro h4 h7
    simp only [scoreDonutColor]
    rw [if_pos h7, if_neg (not_lt.mpr h4)]
  · intro h
    simp only [scoreDonutColor]
    rw [if_pos h]
  · simp only [scoreDonutOffset]
    ring

/-- Witness for `scoreDonut_partition_and_offset` at scores 8, 5 and 2
and circumference 1. -/
theorem scoreDonut_partition_and_offset_witness :
    scoreDonutColor 8 = "text-green-400"
    ∧ scoreDonutColor 5 = "text-yellow-400"
    ∧ scoreDonutColor 2 = "text-red-400" :=
  ⟨(scoreDonut_partition_and_offset 1 8).1 (by norm_num),
   (scoreDonut_partition_and_offset 1 5).2.1 (by norm_num) (by norm_num),
   (scoreDonut_partition_and_offset 1 2).2.2.1 (by norm_num)⟩

/-- Any JSON value accepted by `AnalysisItemSchema` of the analyze flow
is accepted by the inline item schema of
`GenerateSocialMediaCopyInputSchema`: the latter requires a subset of
the former's fields (no `id`) with identical field schemas, and Zod
object parsing strips rather than rejects the extra `id` key. -/
theorem parseGenCopyItem_of_parseAnalysisItem (j : Json) (item : AnalysisItem)
    (h : parseAnalysisItem j = some item) :
    parseGenCopyItem j = some (eraseId item) := by
  simp only [parseAnalysisItem, bind, Option.bind_eq_some, Option.pure_def,
    Option.some.injEq] at h
  obtain ⟨idStr, -, area, ⟨ja, hja, hpa⟩, score, ⟨jsc, hjsc, hpsc⟩,
    leak, ⟨jl, hjl, hpl⟩, fix, ⟨jf, hjf, hpf⟩, heq⟩ := h
  subst heq
  simp only [parseGenCopyItem, bind, hja, hjsc, hjl, hjf, Option.some_bind,
    hpa, hpsc, hpl, hpf, Option.pure_def, eraseId]

/-- Element-wise version of `parseGenCopyItem_of_parseAnalysisItem`
for the whole `analysis` array. -/
theorem parseGenCopyItems_of_parseAnalysisItems (js : List Json)
    (items : List AnalysisItem) (h : parseAnalysisItems js = some items) :
    parseGenCopyItems js = some (items.map eraseId) := by
  induction js generalizing items with
  | nil =>
    simp only [parseAnalysisItems, Option.some.injEq] at h
    subst h
    rfl
  | cons j js ih =>
    simp only [parseAnalysisItems, bind, Option.bind_eq_some, Option.pure_def,
      Option.some.injEq] at h
    obtain ⟨item, hitem, rest, hrest, heq⟩ := h
    subst heq
    simp only [parseGenCopyItems, bind, parseGenCopyItem_of_parseAnalysisItem j item hitem,
      ih rest hrest, Option.some_bind, Option.pure_def, List.map_cons]

/-- C5: round-trip composition — every `analysis` array accepted by
the analyze flow's output schema, placed as the `analysis` field of a
copy generation request (together with any persona and offerDetails
strings), satisfies `GenerateSocialMediaCopyInputSchema` without a
re-validation failure; the parsed items are the analyze items with the
`id` field stripped. -/
theorem gencopy_input_accepts_analyze_output (js : List Json)
    (items : List AnalysisItem) (persona offerDetails : String)
    (h : parseAnalysisArray (.arr js) = some items) :
    parseGenCopyInput (.obj
      [("analysis", .arr js), ("persona", .str persona),
       ("offerDetails", .str offerDetails)])
      = some ⟨items.map eraseId, persona, offerDetails⟩ := by
  have harr : parseGenCopyArray (.arr js) = some (items.map eraseId) :=
    parseGenCopyItems_of_parseAnalysisItems js items h
  simp [parseGenCopyInput, Json.getField, lookupField, parseZodString, harr]

/-- Witness for `gencopy_input_accepts_analyze_output` at one concrete
parsed analysis item. -/
theorem gencopy_input_accepts_analyze_output_witness :
    parseGenCopyInput (.obj
      [("analysis", .arr
         [.obj [("id", .str "w1"), ("area", .str "Offer Urgency"),
                ("score", .num 3), ("leak", .str "No deadline is stated."),
                ("fix", .obj
                  [("primarySuggestion", .str "Add a concrete deadline."),
                   ("abTestSuggestion", .str "Add a limited bonus.")])]]),
       ("persona", .str "Busy Parents"),
       ("offerDetails", .str "A meal planning app for families")])
      = some ⟨[⟨"Offer Urgency", 3, "No deadline is stated.",
               ⟨"Add a concrete deadline.", "Add a limited bonus."⟩⟩],
              "Busy Parents", "A meal planning app for families"⟩ :=
  gencopy_input_accepts_analyze_output _
    [⟨"w1", "Offer Urgency", 3, "No deadline is stated.",
      ⟨"Add a concrete deadline.", "Add a limited bonus."⟩⟩] _ _ rfl

end FunnelFlow
